import Mathlib

/-!
Verification of the linear-move planning module of the stepper_math repository
(source file stepper_math/stepper_math_linear.cpp).

The embedding models the C code on a 32-bit target (unsigned long and long are
32 bits wide, as the comments in the source assume):

* unsigned arithmetic is modelled on Nat with an explicit reduction modulo 2^32
  at every multiplication that may exceed the unsigned range and at every
  conversion of a signed value to unsigned long;
* signed C division (truncation toward zero) is modelled with Int.tdiv;
* the double-precision computations of the source, namely
  dt = ((double)dl / (double)spd) * 1000000 and sqrt(dl1*dl1 + dl2*dl2), are
  modelled as exact rational arithmetic followed by truncation toward zero
  (Int.tdiv, Nat.sqrt). This model of dt is faithful exactly on executions
  with a positive resolved speed and a result inside the 32-bit signed long
  range: at speed 0 the source divides a double by zero and casts the infinity
  to long, and an out-of-range cast is likewise undefined behaviour in the
  source, while the Lean model is total (division by zero is 0, Int is
  unbounded);
* the debug serial printing of the source is pure output and is omitted;
* the external collaborator prepare_steps(sm, steps, step_delay) is modelled by
  recording the arguments of each call in the emitted list of the result.

The stepper structure itself lives in the external stepper_h library (stepper.h
is not part of this repository); its three fields used here are taken from the
repository documentation: a positive step length distance_per_step, a positive
minimal inter-pulse delay pulse_delay (microseconds), and a signed current
position current_pos.
-/

namespace StepperMath

/-- Modulus of 32-bit unsigned long arithmetic. -/
def U32 : Nat := 4294967296

/-- Error code STEPPER_MATH_ERR_TOO_FAST returned by all planning entry points
when the requested speed exceeds the applicable maximum. -/
def STEPPER_MATH_ERR_TOO_FAST : Int := 1

/-- Axis descriptor (from the stepper_h collaborator): step length in the base
length unit, minimal pulse delay in microseconds, current absolute position. -/
structure stepper where
  distance_per_step : Nat
  pulse_delay : Nat
  current_pos : Int
deriving DecidableEq

/-- Result of one planning call: the returned error code (0 on success) and the
list of (steps, step_delay) pairs passed to prepare_steps, in call order. -/
structure LineResult where
  ret : Int
  emitted : List (Int × Nat)
deriving DecidableEq

/-- Line 75 of the source: steps = dl / sm->distance_per_step, a C signed
division, hence truncation toward zero. -/
def steps_of (sm : stepper) (dl : Int) : Int :=
  dl.tdiv (sm.distance_per_step : Int)

/-- Line 76 of the source: mod_steps = steps >= 0 ? steps : -steps. -/
def mod_steps_of (sm : stepper) (dl : Int) : Int :=
  if 0 ≤ steps_of sm dl then steps_of sm dl else -steps_of sm dl

/-- Line 111 of the source: the unsigned 32-bit computation
max_spd = (sm->distance_per_step * 1000 / sm->pulse_delay) * 1000.
Each multiplication wraps modulo 2^32. -/
def max_spd_of (sm : stepper) : Nat :=
  sm.distance_per_step * 1000 % U32 / sm.pulse_delay * 1000 % U32

/-- Lines 113-119 of the source, flattened: the speed actually used after the
spd == 0 check (the TooFast early return is handled by the callers below). -/
def resolved_spd (spd max_spd : Nat) : Nat :=
  if spd = 0 then max_spd else spd

/-- Line 121 of the source: dt = ((double)dl / (double)spd) * 1000000, cast to
long. The double quotient times 1000000 equals the rational dl * 1000000 / spd;
the cast truncates toward zero, which is Int.tdiv on the scaled numerator.
Faithful only for spd > 0 with a result inside the 32-bit signed range: the
source produces an infinity at spd = 0 and an out-of-range cast is undefined
behaviour there, while this definition is total (Int.tdiv by zero is 0 and Int
is unbounded), so no theorem about those executions is read off this model. -/
def dt_of (dl : Int) (spd : Nat) : Int :=
  (dl * 1000000).tdiv (spd : Int)

/-- Line 124 of the source: step_delay = dt / mod_steps. The division is a C
signed division (both operands are long); the assignment to the unsigned long
step_delay reduces the result modulo 2^32. -/
def step_delay_of (dt mod_steps : Int) : Nat :=
  (dt.tdiv mod_steps % (U32 : Int)).toNat

/-- Line 237 of the source: dl = sqrt((double)dl1*(double)dl1 + (double)dl2*(double)dl2),
cast to long: the floor of the square root of the sum of squares. -/
def hyp_len (dl1 dl2 : Int) : Int :=
  ((Nat.sqrt (dl1 * dl1 + dl2 * dl2).toNat : Nat) : Int)

/-- Lines 56-139 of the source: single-axis relative planning. -/
def prepare_line (sm : stepper) (dl : Int) (spd : Nat) : LineResult :=
  let steps := steps_of sm dl
  let mod_steps := mod_steps_of sm dl
  let max_spd := max_spd_of sm
  if spd ≠ 0 ∧ max_spd < spd then
    { ret := STEPPER_MATH_ERR_TOO_FAST, emitted := [] }
  else
    let rspd := resolved_spd spd max_spd
    let dt := dt_of dl rspd
    let step_delay := step_delay_of dt mod_steps
    { ret := 0, emitted := [(steps, step_delay)] }

/-- Lines 155-159 of the source: single-axis absolute planning,
dl = cvalue - sm->current_pos, then delegation. -/
def prepare_line_abs (sm : stepper) (cvalue : Int) (spd : Nat) : LineResult :=
  prepare_line sm (cvalue - sm.current_pos) spd

/-- Lines 176-266 of the source: two-axis relative planning. -/
def prepare_line_2d (sm1 sm2 : stepper) (dl1 dl2 : Int) (spd : Nat) : LineResult :=
  let steps1 := steps_of sm1 dl1
  let steps2 := steps_of sm2 dl2
  let mod1 := mod_steps_of sm1 dl1
  let mod2 := mod_steps_of sm2 dl2
  let max1 := max_spd_of sm1
  let max2 := max_spd_of sm2
  let max_spd := if max1 < max2 then max1 else max2
  if spd ≠ 0 ∧ max_spd < spd then
    { ret := STEPPER_MATH_ERR_TOO_FAST, emitted := [] }
  else
    let rspd := resolved_spd spd max_spd
    let dl := hyp_len dl1 dl2
    let dt := dt_of dl rspd
    let sd1 := step_delay_of dt mod1
    let sd2 := step_delay_of dt mod2
    { ret := 0, emitted := [(steps1, sd1), (steps2, sd2)] }

/-- Lines 284-291 of the source: two-axis absolute planning,
dl_i = cvalue_i - sm_i->current_pos, then delegation. -/
def prepare_line_2d_abs (sm1 sm2 : stepper) (c1 c2 : Int) (spd : Nat) : LineResult :=
  prepare_line_2d sm1 sm2 (c1 - sm1.current_pos) (c2 - sm2.current_pos) spd

/-- Mathematically exact maximum speed floor(distance_per_step * 1000000 / pulse_delay),
used to compare against the staged computation of the source. -/
def max_spd_exact (dps pd : Nat) : Nat :=
  dps * 1000000 / pd

/-- Intermediate-order value of line 111 without any 32-bit reduction, used to
state which intermediates stay inside the unsigned range. -/
def max_spd_ideal (dps pd : Nat) : Nat :=
  dps * 1000 / pd * 1000

/-! Helper lemmas shared by the claim theorems. -/

theorem if_lt_eq_min (a b : Nat) : (if a < b then a else b) = min a b := by
  split <;> omega

theorem mod_steps_of_eq (sm : stepper) (dl : Int) :
    mod_steps_of sm dl = ((dl.natAbs / sm.distance_per_step : Nat) : Int) := by
  unfold mod_steps_of steps_of
  have h1 : (dl.tdiv (sm.distance_per_step : Int)).natAbs =
      dl.natAbs / sm.distance_per_step := by
    rw [Int.natAbs_tdiv, Int.natAbs_ofNat]; rfl
  rcases Int.le_or_lt 0 (dl.tdiv (sm.distance_per_step : Int)) with h | h
  · rw [if_pos h, ← h1]; omega
  · rw [if_neg (by omega), ← h1]; omega

theorem max_spd_mul_pd_le (sm : stepper) :
    max_spd_of sm * sm.pulse_delay ≤ sm.distance_per_step * 1000000 := by
  unfold max_spd_of
  calc sm.distance_per_step * 1000 % U32 / sm.pulse_delay * 1000 % U32 * sm.pulse_delay
      ≤ sm.distance_per_step * 1000 % U32 / sm.pulse_delay * 1000 * sm.pulse_delay :=
        mul_le_mul_right' (Nat.mod_le _ _) _
    _ = sm.distance_per_step * 1000 % U32 / sm.pulse_delay * sm.pulse_delay * 1000 := by
        ring
    _ ≤ sm.distance_per_step * 1000 % U32 * 1000 :=
        mul_le_mul_right' (Nat.div_mul_le_self _ _) _
    _ ≤ sm.distance_per_step * 1000 * 1000 :=
        mul_le_mul_right' (Nat.mod_le _ _) _
    _ = sm.distance_per_step * 1000000 := by ring

theorem step_delay_ge (pd s : Nat) (dt : Int) (hs : 0 < s)
    (hge : s * pd ≤ dt.natAbs) (hlt : dt.natAbs < 2 ^ 31) :
    pd ≤ step_delay_of dt (s : Int) := by
  have h1 : (dt.tdiv (s : Int)).natAbs = dt.natAbs / s := by
    rw [Int.natAbs_tdiv, Int.natAbs_ofNat]; rfl
  have h3 : pd ≤ dt.natAbs / s :=
    (Nat.le_div_iff_mul_le hs).2 (by rw [mul_comm] at hge; exact hge)
  have h4 : pd ≤ (dt.tdiv (s : Int)).natAbs := by rw [h1]; exact h3
  have h5 : (dt.tdiv (s : Int)).natAbs < 2 ^ 31 := by
    rw [h1]; exact lt_of_le_of_lt (Nat.div_le_self _ _) hlt
  unfold step_delay_of U32
  omega

theorem dt_of_natAbs (dl : Int) (r : Nat) :
    (dt_of dl r).natAbs = dl.natAbs * 1000000 / r := by
  unfold dt_of
  rw [Int.natAbs_tdiv, Int.natAbs_mul, Int.natAbs_ofNat]
  rfl

theorem prepare_line_ret_iff (sm : stepper) (dl : Int) (spd : Nat) :
    (prepare_line sm dl spd).ret = 0 ↔ ¬(spd ≠ 0 ∧ max_spd_of sm < spd) := by
  by_cases h : spd ≠ 0 ∧ max_spd_of sm < spd
  · simp [prepare_line, h, STEPPER_MATH_ERR_TOO_FAST]
  · simp [prepare_line, h]

theorem prepare_line_2d_ret_iff (sm1 sm2 : stepper) (dl1 dl2 : Int) (spd : Nat) :
    (prepare_line_2d sm1 sm2 dl1 dl2 spd).ret = 0 ↔
      ¬(spd ≠ 0 ∧ min (max_spd_of sm1) (max_spd_of sm2) < spd) := by
  rw [← if_lt_eq_min]
  by_cases h : spd ≠ 0 ∧
      (if max_spd_of sm1 < max_spd_of sm2 then max_spd_of sm1 else max_spd_of sm2) < spd
  · simp [prepare_line_2d, h, STEPPER_MATH_ERR_TOO_FAST]
  · simp [prepare_line_2d, h]

theorem prepare_line_eq_of_ok (sm : stepper) (dl : Int) (spd : Nat)
    (h : ¬(spd ≠ 0 ∧ max_spd_of sm < spd)) :
    prepare_line sm dl spd =
      { ret := 0,
        emitted := [(steps_of sm dl,
          step_delay_of (dt_of dl (resolved_spd spd (max_spd_of sm)))
            (mod_steps_of sm dl))] } := by
  simp only [prepare_line]
  rw [if_neg h]

theorem prepare_line_2d_eq_of_ok (sm1 sm2 : stepper) (dl1 dl2 : Int) (spd : Nat)
    (h : ¬(spd ≠ 0 ∧ min (max_spd_of sm1) (max_spd_of sm2) < spd)) :
    prepare_line_2d sm1 sm2 dl1 dl2 spd =
      { ret := 0,
        emitted :=
          [(steps_of sm1 dl1,
            step_delay_of
              (dt_of (hyp_len dl1 dl2)
                (resolved_spd spd (min (max_spd_of sm1) (max_spd_of sm2))))
              (mod_steps_of sm1 dl1)),
           (steps_of sm2 dl2,
            step_delay_of
              (dt_of (hyp_len dl1 dl2)
                (resolved_spd spd (min (max_spd_of sm1) (max_spd_of sm2))))
              (mod_steps_of sm2 dl2))] } := by
  simp only [prepare_line_2d, if_lt_eq_min]
  rw [if_neg h]

theorem resolved_spd_le (spd m : Nat) (h : ¬(spd ≠ 0 ∧ m < spd)) :
    resolved_spd spd m ≤ m := by
  by_cases h0 : spd = 0
  · simp [resolved_spd, h0]
  · have : ¬ m < spd := fun hl => h ⟨h0, hl⟩
    simp [resolved_spd, h0]
    omega

/-! Claim theorems. -/

/-- C1 (counterexample): the claim fails on the full stated input range. At
distance_per_step = 100000 and pulse_delay = 1, the final multiplication of the
staged formula leaves the 32-bit unsigned range, and the value the code then
computes (wrapped modulo 2^32) violates the claimed bound
exact - 1000 < computed. -/
theorem C1_range_counterexample :
    (1 ≤ 100000 ∧ 100000 ≤ 100000 ∧ 1 ≤ 1 ∧ 1 ≤ 10000) ∧
    ¬ max_spd_ideal 100000 1 < U32 ∧
    ¬ max_spd_exact 100000 1 < max_spd_of ⟨100000, 1, 0⟩ + 1000 := by
  decide

/-- C1 (amended): for distance_per_step in [1, 100000] and pulse_delay in
[1, 10000] such that the mathematical value of the staged formula
(distance_per_step * 1000 / pulse_delay) * 1000 is below 2^32, every
intermediate of the staged computation stays inside the 32-bit unsigned range,
the code computes exactly that value, the 7500/1000 instance gives 7500000, and
the computed value differs from floor(distance_per_step * 1000000 / pulse_delay)
by less than 1000: exact < computed + 1000 (the integer reading of
exact - 1000 < computed) and computed ≤ exact. -/
theorem C1_max_spd_staged (dps pd : Nat) (h1 : 1 ≤ dps) (h2 : dps ≤ 100000)
    (h3 : 1 ≤ pd) (h4 : pd ≤ 10000) (hov : max_spd_ideal dps pd < U32) :
    (dps * 1000 < U32 ∧ dps * 1000 / pd < U32 ∧ dps * 1000 / pd * 1000 < U32) ∧
    max_spd_of ⟨dps, pd, 0⟩ = max_spd_ideal dps pd ∧
    max_spd_of ⟨7500, 1000, 0⟩ = 7500000 ∧
    max_spd_exact dps pd < max_spd_of ⟨dps, pd, 0⟩ + 1000 ∧
    max_spd_of ⟨dps, pd, 0⟩ ≤ max_spd_exact dps pd := by
  have hov' : dps * 1000 / pd * 1000 < U32 := hov
  have ha : dps * 1000 < U32 := by unfold U32; omega
  have hb : dps * 1000 / pd < U32 := lt_of_le_of_lt (Nat.div_le_self _ _) ha
  have hd : max_spd_of ⟨dps, pd, 0⟩ = dps * 1000 / pd * 1000 := by
    show dps * 1000 % U32 / pd * 1000 % U32 = dps * 1000 / pd * 1000
    rw [Nat.mod_eq_of_lt ha, Nat.mod_eq_of_lt hov']
  have hdm := Nat.div_add_mod (dps * 1000) pd
  have hexact : dps * 1000000 / pd =
      dps * 1000 / pd * 1000 + dps * 1000 % pd * 1000 / pd := by
    calc dps * 1000000 / pd = dps * 1000 * 1000 / pd := by
          rw [show dps * 1000000 = dps * 1000 * 1000 from by ring]
      _ = (pd * (dps * 1000 / pd) + dps * 1000 % pd) * 1000 / pd := by rw [hdm]
      _ = (pd * (dps * 1000 / pd * 1000) + dps * 1000 % pd * 1000) / pd := by
          rw [show (pd * (dps * 1000 / pd) + dps * 1000 % pd) * 1000 =
            pd * (dps * 1000 / pd * 1000) + dps * 1000 % pd * 1000 from by ring]
      _ = dps * 1000 / pd * 1000 + dps * 1000 % pd * 1000 / pd :=
          Nat.mul_add_div (by omega) _ _
  have hrem : dps * 1000 % pd * 1000 / pd < 1000 := by
    have hr : dps * 1000 % pd < pd := Nat.mod_lt _ (by omega)
    have hml : dps * 1000 % pd * 1000 < 1000 * pd := by
      calc dps * 1000 % pd * 1000 < pd * 1000 :=
            mul_lt_mul_of_pos_right hr (by omega)
        _ = 1000 * pd := by ring
    exact (Nat.div_lt_iff_lt_mul (by omega)).2 hml
  refine ⟨⟨ha, hb, hov'⟩, hd, by decide, ?_, ?_⟩
  · unfold max_spd_exact
    rw [hd, hexact]
    exact Nat.add_lt_add_left hrem _
  · unfold max_spd_exact
    rw [hd, hexact]
    exact Nat.le_add_right _ _

/-- C1 (witness): the amended theorem applied at distance_per_step = 7500,
pulse_delay = 1000. -/
theorem C1_max_spd_staged_witness :
    (1 ≤ 7500 ∧ 7500 ≤ 100000 ∧ 1 ≤ 1000 ∧ 1000 ≤ 10000 ∧
      max_spd_ideal 7500 1000 < U32) ∧
    max_spd_of ⟨7500, 1000, 0⟩ = 7500000 :=
  ⟨by decide,
    (C1_max_spd_staged 7500 1000 (by decide) (by decide) (by decide) (by decide)
      (by decide)).2.2.1⟩

/-- C2: with a nonzero requested speed strictly above the applicable maximum
(the per-axis maximum for the single-axis entry points, the minimum of the two
per-axis maxima for the two-axis entry points), all four entry points return
STEPPER_MATH_ERR_TOO_FAST and pass nothing to prepare_steps. -/
theorem C2_too_fast_no_side_effect (sm1 sm2 : stepper) (dl1 dl2 c1 c2 : Int)
    (spd : Nat) (hnz : spd ≠ 0) :
    (max_spd_of sm1 < spd →
      prepare_line sm1 dl1 spd = ⟨STEPPER_MATH_ERR_TOO_FAST, []⟩ ∧
      prepare_line_abs sm1 c1 spd = ⟨STEPPER_MATH_ERR_TOO_FAST, []⟩) ∧
    (min (max_spd_of sm1) (max_spd_of sm2) < spd →
      prepare_line_2d sm1 sm2 dl1 dl2 spd = ⟨STEPPER_MATH_ERR_TOO_FAST, []⟩ ∧
      prepare_line_2d_abs sm1 sm2 c1 c2 spd = ⟨STEPPER_MATH_ERR_TOO_FAST, []⟩) := by
  constructor
  · intro h
    have e1 : prepare_line sm1 dl1 spd = ⟨STEPPER_MATH_ERR_TOO_FAST, []⟩ := by
      simp only [prepare_line]
      rw [if_pos ⟨hnz, h⟩]
    have e2 : prepare_line sm1 (c1 - sm1.current_pos) spd =
        ⟨STEPPER_MATH_ERR_TOO_FAST, []⟩ := by
      simp only [prepare_line]
      rw [if_pos ⟨hnz, h⟩]
    exact ⟨e1, e2⟩
  · intro h
    have h' : (if max_spd_of sm1 < max_spd_of sm2 then max_spd_of sm1
        else max_spd_of sm2) < spd := by rw [if_lt_eq_min]; exact h
    have e1 : prepare_line_2d sm1 sm2 dl1 dl2 spd =
        ⟨STEPPER_MATH_ERR_TOO_FAST, []⟩ := by
      simp only [prepare_line_2d]
      rw [if_pos ⟨hnz, h'⟩]
    have e2 : prepare_line_2d sm1 sm2 (c1 - sm1.current_pos) (c2 - sm2.current_pos)
        spd = ⟨STEPPER_MATH_ERR_TOO_FAST, []⟩ := by
      simp only [prepare_line_2d]
      rw [if_pos ⟨hnz, h'⟩]
    exact ⟨e1, e2⟩

/-- C2 (witness): applied with two concrete axes (maxima 1000000 and 7500000)
and requested speed 2000000, above both applicable maxima. -/
theorem C2_too_fast_no_side_effect_witness :
    ((2000000 : Nat) ≠ 0 ∧ max_spd_of ⟨1000, 1000, 0⟩ < 2000000 ∧
      min (max_spd_of ⟨1000, 1000, 0⟩) (max_spd_of ⟨7500, 1000, 0⟩) < 2000000) ∧
    prepare_line ⟨1000, 1000, 0⟩ 5000 2000000 = ⟨STEPPER_MATH_ERR_TOO_FAST, []⟩ ∧
    prepare_line_2d ⟨1000, 1000, 0⟩ ⟨7500, 1000, 0⟩ 5000 5000 2000000 =
      ⟨STEPPER_MATH_ERR_TOO_FAST, []⟩ :=
  ⟨by decide,
    ((C2_too_fast_no_side_effect ⟨1000, 1000, 0⟩ ⟨7500, 1000, 0⟩ 5000 5000 0 0
        2000000 (by decide)).1 (by decide)).1,
    ((C2_too_fast_no_side_effect ⟨1000, 1000, 0⟩ ⟨7500, 1000, 0⟩ 5000 5000 0 0
        2000000 (by decide)).2 (by decide)).1⟩

/-- C6 (evaluation at the failing input): with distance_per_step = 1000,
pulse_delay = 1000, speed 1000, the move dl = 10000 emits steps = 10 with
step_delay = 1000000, while the mirrored move dl = -10000 emits the exactly
negated steps = -10 but step_delay = 4293967296 = 2^32 - 1000000: the negative
signed quotient dt / mod_steps is converted to unsigned long, so the emitted
delay is not identical to the positive case. -/
theorem C6_direction_sign_eval :
    prepare_line ⟨1000, 1000, 0⟩ 10000 1000 = ⟨0, [(10, 1000000)]⟩ ∧
    prepare_line ⟨1000, 1000, 0⟩ (-10000) 1000 = ⟨0, [(-10, 4293967296)]⟩ ∧
    steps_of ⟨1000, 1000, 0⟩ (-10000) = -(steps_of ⟨1000, 1000, 0⟩ 10000) := by
  decide

/-- C7: the single-axis worked example. With distance_per_step = 1000,
pulse_delay = 1000, dl = 10000, spd = 1000 the call succeeds and produces
steps = 10, total transit time dt = 10000000 microseconds, and
step_delay = 1000000 microseconds. -/
theorem C7_single_axis_example :
    prepare_line ⟨1000, 1000, 0⟩ 10000 1000 = ⟨0, [(10, 1000000)]⟩ ∧
    steps_of ⟨1000, 1000, 0⟩ 10000 = 10 ∧
    dt_of 10000 (resolved_spd 1000 (max_spd_of ⟨1000, 1000, 0⟩)) = 10000000 ∧
    step_delay_of 10000000 (mod_steps_of ⟨1000, 1000, 0⟩ 10000) = 1000000 := by
  decide

/-- C3: with requested speed 0, both relative planners succeed (never TooFast)
and behave exactly as if called with the applicable maximum speed: the per-axis
maximum for prepare_line, the minimum of the two per-axis maxima for
prepare_line_2d. -/
theorem C3_speed_zero_resolves_max (sm sm1 sm2 : stepper) (dl dl1 dl2 : Int) :
    ((prepare_line sm dl 0).ret = 0 ∧
      prepare_line sm dl 0 = prepare_line sm dl (max_spd_of sm)) ∧
    ((prepare_line_2d sm1 sm2 dl1 dl2 0).ret = 0 ∧
      prepare_line_2d sm1 sm2 dl1 dl2 0 =
        prepare_line_2d sm1 sm2 dl1 dl2
          (min (max_spd_of sm1) (max_spd_of sm2))) := by
  have hA := prepare_line_eq_of_ok sm dl 0 (fun h => h.1 rfl)
  have hB := prepare_line_eq_of_ok sm dl (max_spd_of sm)
    (fun h => absurd h.2 (lt_irrefl _))
  have hC := prepare_line_2d_eq_of_ok sm1 sm2 dl1 dl2 0 (fun h => h.1 rfl)
  have hD := prepare_line_2d_eq_of_ok sm1 sm2 dl1 dl2
    (min (max_spd_of sm1) (max_spd_of sm2)) (fun h => absurd h.2 (lt_irrefl _))
  refine ⟨⟨by rw [hA], ?_⟩, ⟨by rw [hC], ?_⟩⟩
  · rw [hA, hB]
    simp [resolved_spd]
  · rw [hC, hD]
    simp [resolved_spd]

/-- C4: in prepare_line_2d the requested speed is resolved against exactly the
minimum of the two per-axis maxima, each given by the same staged formula
max_spd_of as the single-axis case: the call fails with TooFast exactly when the
nonzero requested speed exceeds that minimum, and speed 0 behaves as that
minimum. -/
theorem C4_effective_max_is_min (sm1 sm2 : stepper) (dl1 dl2 : Int) (spd : Nat) :
    ((prepare_line_2d sm1 sm2 dl1 dl2 spd).ret = STEPPER_MATH_ERR_TOO_FAST ↔
      spd ≠ 0 ∧ min (max_spd_of sm1) (max_spd_of sm2) < spd) ∧
    prepare_line_2d sm1 sm2 dl1 dl2 0 =
      prepare_line_2d sm1 sm2 dl1 dl2
        (min (max_spd_of sm1) (max_spd_of sm2)) := by
  constructor
  · by_cases h : spd ≠ 0 ∧ min (max_spd_of sm1) (max_spd_of sm2) < spd
    · have he : prepare_line_2d sm1 sm2 dl1 dl2 spd =
          ⟨STEPPER_MATH_ERR_TOO_FAST, []⟩ := by
        simp only [prepare_line_2d, if_lt_eq_min]
        rw [if_pos h]
      rw [he]
      simp [h]
    · rw [prepare_line_2d_eq_of_ok sm1 sm2 dl1 dl2 spd h]
      constructor
      · intro hc
        simp [STEPPER_MATH_ERR_TOO_FAST] at hc
      · intro hc
        exact absurd hc h
  · have hC := prepare_line_2d_eq_of_ok sm1 sm2 dl1 dl2 0 (fun h => h.1 rfl)
    have hD := prepare_line_2d_eq_of_ok sm1 sm2 dl1 dl2
      (min (max_spd_of sm1) (max_spd_of sm2)) (fun h => absurd h.2 (lt_irrefl _))
    rw [hC, hD]
    simp [resolved_spd]

/-- Helper: with a positive step length, a displacement of at least one step
gives at least one unit of mod_steps. -/
theorem mod_steps_of_pos (sm : stepper) (dl : Int) (hd : 0 < sm.distance_per_step)
    (h : (sm.distance_per_step : Int) ≤ |dl|) : 1 ≤ mod_steps_of sm dl := by
  rw [mod_steps_of_eq]
  have h1 : sm.distance_per_step ≤ dl.natAbs := by
    rw [Int.abs_eq_natAbs] at h
    exact_mod_cast h
  have h2 : 1 ≤ dl.natAbs / sm.distance_per_step := (Nat.one_le_div_iff hd).2 h1
  exact_mod_cast h2

/-- C5: the divisor of the step_delay division. If a planning call does not
fail with TooFast and the displacement reaches at least one full step on each
involved axis, mod_steps is at least 1 (the division has a nonzero divisor);
if the displacement is smaller than one step, mod_steps is 0 and the division
of line 124 divides by zero. -/
theorem C5_step_delay_divisor (sm sm1 sm2 : stepper) (dl dl1 dl2 : Int)
    (spd spd2 : Nat) (h1 : 0 < sm.distance_per_step)
    (h2 : 0 < sm1.distance_per_step) (h3 : 0 < sm2.distance_per_step) :
    ((prepare_line sm dl spd).ret ≠ STEPPER_MATH_ERR_TOO_FAST →
      (sm.distance_per_step : Int) ≤ |dl| → 1 ≤ mod_steps_of sm dl) ∧
    ((prepare_line_2d sm1 sm2 dl1 dl2 spd2).ret ≠ STEPPER_MATH_ERR_TOO_FAST →
      (sm1.distance_per_step : Int) ≤ |dl1| →
      (sm2.distance_per_step : Int) ≤ |dl2| →
      1 ≤ mod_steps_of sm1 dl1 ∧ 1 ≤ mod_steps_of sm2 dl2) ∧
    (|dl| < (sm.distance_per_step : Int) → mod_steps_of sm dl = 0) := by
  refine ⟨fun _ hd => mod_steps_of_pos sm dl h1 hd,
    fun _ hd1 hd2 =>
      ⟨mod_steps_of_pos sm1 dl1 h2 hd1, mod_steps_of_pos sm2 dl2 h3 hd2⟩,
    fun hlt => ?_⟩
  rw [mod_steps_of_eq]
  have h1' : dl.natAbs < sm.distance_per_step := by
    rw [Int.abs_eq_natAbs] at hlt
    exact_mod_cast hlt
  rw [Nat.div_eq_of_lt h1']
  rfl

/-- C5 (witness): applied to a 1000-unit-step axis, displacements 10000 (one
axis) and 3000/4000 (two axes), and a 300-unit displacement smaller than one
step. -/
theorem C5_step_delay_divisor_witness :
    (0 < 1000 ∧
      (prepare_line ⟨1000, 1000, 0⟩ 10000 1000).ret ≠ STEPPER_MATH_ERR_TOO_FAST ∧
      (prepare_line_2d ⟨1000, 1000, 0⟩ ⟨1000, 1000, 0⟩ 3000 4000 0).ret ≠
        STEPPER_MATH_ERR_TOO_FAST ∧
      |(300 : Int)| < ((1000 : Nat) : Int)) ∧
    1 ≤ mod_steps_of ⟨1000, 1000, 0⟩ 10000 ∧
    (1 ≤ mod_steps_of ⟨1000, 1000, 0⟩ 3000 ∧ 1 ≤ mod_steps_of ⟨1000, 1000, 0⟩ 4000) ∧
    mod_steps_of ⟨1000, 1000, 0⟩ 300 = 0 :=
  ⟨by refine ⟨by decide, by decide, ?_, by decide⟩
      rw [(prepare_line_2d_eq_of_ok ⟨1000, 1000, 0⟩ ⟨1000, 1000, 0⟩ 3000 4000 0
        (fun h => h.1 rfl))]
      decide,
    (C5_step_delay_divisor ⟨1000, 1000, 0⟩ ⟨1000, 1000, 0⟩ ⟨1000, 1000, 0⟩
        10000 3000 4000 1000 0 (by decide) (by decide) (by decide)).1
      (by decide) (by decide),
    (C5_step_delay_divisor ⟨1000, 1000, 0⟩ ⟨1000, 1000, 0⟩ ⟨1000, 1000, 0⟩
        10000 3000 4000 1000 0 (by decide) (by decide) (by decide)).2.1
      (by
        rw [(prepare_line_2d_eq_of_ok ⟨1000, 1000, 0⟩ ⟨1000, 1000, 0⟩ 3000 4000 0
          (fun h => h.1 rfl))]
        decide)
      (by decide) (by decide),
    (C5_step_delay_divisor ⟨1000, 1000, 0⟩ ⟨1000, 1000, 0⟩ ⟨1000, 1000, 0⟩
        300 3000 4000 1000 0 (by decide) (by decide) (by decide)).2.2
      (by decide)⟩

/-- C8: the two-axis worked example. Two equal axes (step length 1000, pulse
delay 1000), dl1 = 3000, dl2 = 4000, speed 0: the effective maximum is
1000000, the hypotenuse is 5000, the shared transit time dt is 5000
microseconds, and the emitted plan is steps1 = 3 with step_delay1 = 1666 and
steps2 = 4 with step_delay2 = 1250. -/
theorem C8_two_axis_example :
    prepare_line_2d ⟨1000, 1000, 0⟩ ⟨1000, 1000, 0⟩ 3000 4000 0 =
      ⟨0, [(3, 1666), (4, 1250)]⟩ ∧
    min (max_spd_of ⟨1000, 1000, 0⟩) (max_spd_of ⟨1000, 1000, 0⟩) = 1000000 ∧
    hyp_len 3000 4000 = 5000 ∧
    dt_of (hyp_len 3000 4000)
      (resolved_spd 0 (min (max_spd_of ⟨1000, 1000, 0⟩)
        (max_spd_of ⟨1000, 1000, 0⟩))) = 5000 := by
  have hsq : Nat.sqrt 25000000 = 5000 := by
    rw [show (25000000 : Nat) = 5000 * 5000 from by norm_num]
    exact Nat.sqrt_eq 5000
  have hlen : hyp_len 3000 4000 = 5000 := by
    unfold hyp_len
    rw [show ((3000 : Int) * 3000 + 4000 * 4000).toNat = 25000000 from by decide,
      hsq]
    rfl
  have hok := prepare_line_2d_eq_of_ok ⟨1000, 1000, 0⟩ ⟨1000, 1000, 0⟩ 3000 4000 0
    (fun h => h.1 rfl)
  rw [hok, hlen]
  exact ⟨by decide, by decide, rfl, by decide⟩

/-- C9: the absolute-target entry points are pure delegations to the relative
ones with dl = target - current_pos (per axis); nothing else differs. -/
theorem C9_abs_delegation (sm sm1 sm2 : stepper) (c c1 c2 : Int) (spd : Nat) :
    prepare_line_abs sm c spd = prepare_line sm (c - sm.current_pos) spd ∧
    prepare_line_2d_abs sm1 sm2 c1 c2 spd =
      prepare_line_2d sm1 sm2 (c1 - sm1.current_pos) (c2 - sm2.current_pos) spd :=
  ⟨rfl, rfl⟩

/-- Helper: the Nat form of a displacement bound stated on Int absolute values. -/
theorem abs_le_to_natAbs (d : Nat) (dl : Int) (h : (d : Int) ≤ |dl|) :
    d ≤ dl.natAbs := by
  rw [Int.abs_eq_natAbs] at h
  exact_mod_cast h

/-- Helper: the hypotenuse of line 237 dominates each displacement magnitude. -/
theorem hyp_len_ge_natAbs (dl1 dl2 : Int) :
    dl1.natAbs ≤ (hyp_len dl1 dl2).natAbs ∧
    dl2.natAbs ≤ (hyp_len dl1 dl2).natAbs := by
  have e1 : ((dl1.natAbs * dl1.natAbs : Nat) : Int) = dl1 * dl1 :=
    Int.natAbs_mul_self
  have e2 : ((dl2.natAbs * dl2.natAbs : Nat) : Int) = dl2 * dl2 :=
    Int.natAbs_mul_self
  have hT : (dl1 * dl1 + dl2 * dl2).toNat =
      dl1.natAbs * dl1.natAbs + dl2.natAbs * dl2.natAbs := by
    rw [← e1, ← e2]
    omega
  have hN : (hyp_len dl1 dl2).natAbs = Nat.sqrt (dl1 * dl1 + dl2 * dl2).toNat :=
    Int.natAbs_ofNat _
  constructor
  · rw [hN, hT]
    calc dl1.natAbs = Nat.sqrt (dl1.natAbs * dl1.natAbs) := (Nat.sqrt_eq _).symm
      _ ≤ Nat.sqrt (dl1.natAbs * dl1.natAbs + dl2.natAbs * dl2.natAbs) :=
          Nat.sqrt_le_sqrt (Nat.le_add_right _ _)
  · rw [hN, hT]
    calc dl2.natAbs = Nat.sqrt (dl2.natAbs * dl2.natAbs) := (Nat.sqrt_eq _).symm
      _ ≤ Nat.sqrt (dl1.natAbs * dl1.natAbs + dl2.natAbs * dl2.natAbs) :=
          Nat.sqrt_le_sqrt (Nat.le_add_left _ _)

/-- Helper: core bound behind the pulse-delay guarantee. If the resolved speed
r respects r * pd ≤ dps * 1000000, the displacement covers at least one step,
the transit time magnitude dominates dl.natAbs * 1000000 / r, and that
magnitude fits the 32-bit signed range, then the emitted delay is at least pd,
for either sign of the transit time. -/
theorem delay_core (dps pd r : Nat) (dl dt : Int) (hdps : 0 < dps) (hr : 0 < r)
    (hrm : r * pd ≤ dps * 1000000) (hdl : dps ≤ dl.natAbs)
    (hdt_ge : dl.natAbs * 1000000 / r ≤ dt.natAbs)
    (hdt_lt : dt.natAbs < 2 ^ 31) :
    pd ≤ step_delay_of dt ((dl.natAbs / dps : Nat) : Int) := by
  have hs : 0 < dl.natAbs / dps := (Nat.one_le_div_iff hdps).2 hdl
  have hsd : dl.natAbs / dps * dps ≤ dl.natAbs := Nat.div_mul_le_self _ _
  have h1 : dl.natAbs / dps * pd * r ≤ dl.natAbs * 1000000 := by
    calc dl.natAbs / dps * pd * r = dl.natAbs / dps * (r * pd) := by ring
      _ ≤ dl.natAbs / dps * (dps * 1000000) := mul_le_mul_left' hrm _
      _ = dl.natAbs / dps * dps * 1000000 := by ring
      _ ≤ dl.natAbs * 1000000 := mul_le_mul_right' hsd _
  have h2 : dl.natAbs / dps * pd ≤ dl.natAbs * 1000000 / r :=
    (Nat.le_div_iff_mul_le hr).2 h1
  exact step_delay_ge pd (dl.natAbs / dps) dt hs (le_trans h2 hdt_ge) hdt_lt

/-- Pulse-delay guarantee on the defined-behaviour regime of line 121: for
every successful planning call (single-axis or two-axis) with positive
distance_per_step and pulse_delay, at least one full step of displacement per
involved axis, a positive resolved speed, and a transit time dt whose
magnitude fits the 32-bit signed long range (the executions on which dt_of is
a faithful model of the source), each step_delay emitted for an axis is at
least that axis minimum pulse_delay. -/
theorem step_delay_ge_pulse_defined (sm sm1 sm2 : stepper) (dl dl1 dl2 : Int)
    (spd spd2 : Nat) (hdps : 0 < sm.distance_per_step)
    (hpd : 0 < sm.pulse_delay) (hdps1 : 0 < sm1.distance_per_step)
    (hpd1 : 0 < sm1.pulse_delay) (hdps2 : 0 < sm2.distance_per_step)
    (hpd2 : 0 < sm2.pulse_delay) :
    ((sm.distance_per_step : Int) ≤ |dl| →
      (prepare_line sm dl spd).ret = 0 →
      1 ≤ resolved_spd spd (max_spd_of sm) →
      (dt_of dl (resolved_spd spd (max_spd_of sm))).natAbs < 2 ^ 31 →
      prepare_line sm dl spd =
        { ret := 0,
          emitted := [(steps_of sm dl,
            step_delay_of (dt_of dl (resolved_spd spd (max_spd_of sm)))
              (mod_steps_of sm dl))] } ∧
      sm.pulse_delay ≤
        step_delay_of (dt_of dl (resolved_spd spd (max_spd_of sm)))
          (mod_steps_of sm dl)) ∧
    ((sm1.distance_per_step : Int) ≤ |dl1| →
      (sm2.distance_per_step : Int) ≤ |dl2| →
      (prepare_line_2d sm1 sm2 dl1 dl2 spd2).ret = 0 →
      1 ≤ resolved_spd spd2 (min (max_spd_of sm1) (max_spd_of sm2)) →
      (dt_of (hyp_len dl1 dl2)
        (resolved_spd spd2 (min (max_spd_of sm1) (max_spd_of sm2)))).natAbs <
        2 ^ 31 →
      sm1.pulse_delay ≤
        step_delay_of
          (dt_of (hyp_len dl1 dl2)
            (resolved_spd spd2 (min (max_spd_of sm1) (max_spd_of sm2))))
          (mod_steps_of sm1 dl1) ∧
      sm2.pulse_delay ≤
        step_delay_of
          (dt_of (hyp_len dl1 dl2)
            (resolved_spd spd2 (min (max_spd_of sm1) (max_spd_of sm2))))
          (mod_steps_of sm2 dl2)) := by
  constructor
  · intro hdl hret hr hdtlt
    have hcond := (prepare_line_ret_iff sm dl spd).1 hret
    have hrle := resolved_spd_le spd (max_spd_of sm) hcond
    refine ⟨prepare_line_eq_of_ok sm dl spd hcond, ?_⟩
    rw [mod_steps_of_eq]
    refine delay_core sm.distance_per_step sm.pulse_delay
      (resolved_spd spd (max_spd_of sm)) dl
      (dt_of dl (resolved_spd spd (max_spd_of sm))) hdps hr ?_
      (abs_le_to_natAbs _ _ hdl) ?_ hdtlt
    · exact le_trans (mul_le_mul_right' hrle _) (max_spd_mul_pd_le sm)
    · rw [dt_of_natAbs]
  · intro hdl1 hdl2 hret hr hdtlt
    have hcond := (prepare_line_2d_ret_iff sm1 sm2 dl1 dl2 spd2).1 hret
    have hrle := resolved_spd_le spd2 (min (max_spd_of sm1) (max_spd_of sm2)) hcond
    have hL := hyp_len_ge_natAbs dl1 dl2
    constructor
    · rw [mod_steps_of_eq]
      refine delay_core sm1.distance_per_step sm1.pulse_delay
        (resolved_spd spd2 (min (max_spd_of sm1) (max_spd_of sm2))) dl1
        (dt_of (hyp_len dl1 dl2)
          (resolved_spd spd2 (min (max_spd_of sm1) (max_spd_of sm2))))
        hdps1 hr ?_ (abs_le_to_natAbs _ _ hdl1) ?_ hdtlt
      · exact le_trans
          (mul_le_mul_right' (le_trans hrle (min_le_left _ _)) _)
          (max_spd_mul_pd_le sm1)
      · rw [dt_of_natAbs]
        exact Nat.div_le_div_right (mul_le_mul_right' hL.1 _)
    · rw [mod_steps_of_eq]
      refine delay_core sm2.distance_per_step sm2.pulse_delay
        (resolved_spd spd2 (min (max_spd_of sm1) (max_spd_of sm2))) dl2
        (dt_of (hyp_len dl1 dl2)
          (resolved_spd spd2 (min (max_spd_of sm1) (max_spd_of sm2))))
        hdps2 hr ?_ (abs_le_to_natAbs _ _ hdl2) ?_ hdtlt
      · exact le_trans
          (mul_le_mul_right' (le_trans hrle (min_le_right _ _)) _)
          (max_spd_mul_pd_le sm2)
      · rw [dt_of_natAbs]
        exact Nat.div_le_div_right (mul_le_mul_right' hL.2 _)

/-- The defined-regime guarantee instantiated at the worked examples: one axis
with step 1000 and pulse delay 1000 moved by 10000 at speed 1000 (delay
1000000), and the 3000/4000 diagonal at maximum speed (delays 1666 and 1250). -/
theorem step_delay_ge_pulse_defined_example :
    (0 < 1000 ∧ ((1000 : Nat) : Int) ≤ |(10000 : Int)| ∧
      (prepare_line ⟨1000, 1000, 0⟩ 10000 1000).ret = 0 ∧
      1 ≤ resolved_spd 1000 (max_spd_of ⟨1000, 1000, 0⟩) ∧
      (dt_of 10000 (resolved_spd 1000 (max_spd_of ⟨1000, 1000, 0⟩))).natAbs <
        2 ^ 31) ∧
    1000 ≤ step_delay_of
      (dt_of 10000 (resolved_spd 1000 (max_spd_of ⟨1000, 1000, 0⟩)))
      (mod_steps_of ⟨1000, 1000, 0⟩ 10000) ∧
    (1000 ≤ step_delay_of
      (dt_of (hyp_len 3000 4000)
        (resolved_spd 0 (min (max_spd_of ⟨1000, 1000, 0⟩)
          (max_spd_of ⟨1000, 1000, 0⟩))))
      (mod_steps_of ⟨1000, 1000, 0⟩ 3000) ∧
     1000 ≤ step_delay_of
      (dt_of (hyp_len 3000 4000)
        (resolved_spd 0 (min (max_spd_of ⟨1000, 1000, 0⟩)
          (max_spd_of ⟨1000, 1000, 0⟩))))
      (mod_steps_of ⟨1000, 1000, 0⟩ 4000)) := by
  have hlen : hyp_len 3000 4000 = 5000 := by
    unfold hyp_len
    rw [show ((3000 : Int) * 3000 + 4000 * 4000).toNat = 25000000 from by decide,
      show (25000000 : Nat) = 5000 * 5000 from by norm_num, Nat.sqrt_eq]
    rfl
  have h2d := (step_delay_ge_pulse_defined ⟨1000, 1000, 0⟩ ⟨1000, 1000, 0⟩
      ⟨1000, 1000, 0⟩ 10000 3000 4000 1000 0 (by decide) (by decide) (by decide)
      (by decide) (by decide) (by decide)).2
    (by decide) (by decide) (by decide) (by decide) (by rw [hlen]; decide)
  have h1d := (step_delay_ge_pulse_defined ⟨1000, 1000, 0⟩ ⟨1000, 1000, 0⟩
      ⟨1000, 1000, 0⟩ 10000 3000 4000 1000 0 (by decide) (by decide) (by decide)
      (by decide) (by decide) (by decide)).1
    (by decide) (by decide) (by decide) (by decide)
  exact ⟨⟨by decide, by decide, by decide, by decide, by decide⟩, h1d.2, h2d⟩

end StepperMath
